import Mathlib

/-!
Verification of the miHeater integration (custom_components/miheater) against
its natural-language specification.

The definitions below are a shallow embedding of `const.py` and `climate.py`:
Python dicts become association lists, exceptions become explicit error values,
and each write path returns the ordered list of `set_properties` transport
calls it issued together with the exception it raised, if any.  In the source
every `raise` on a write path happens before the transport `await`, so an
error value always corresponds to zero transport calls issued by that path.
-/

namespace MiHeater

/-- A MIoT property address: a `(siid, piid)` pair, as stored in
`MODEL_PROPERTIES` in `const.py`. -/
abbrev Addr := Nat × Nat

/-- A value sent to or received from the device over the transport:
a Python `int` or `bool`. -/
inductive PropValue where
  | int (n : Int)
  | bool (b : Bool)
deriving DecidableEq, Repr

/-- Python `int(...)` applied to a device value (used at `climate.py` line 84,
`int(data["countdown_time"])`). -/
def PropValue.toInt : PropValue → Int
  | .int n => n
  | .bool b => if b then 1 else 0

/-- A per-model property schema: the Python dict mapping a logical attribute
name to an optional address (`None` meaning the attribute is unsupported on
that model), modelled as an association list whose keys are distinct. -/
abbrev Schema := List (String × Option Addr)

/-- `self._properties.get(name)` on a schema dict: an absent key and a key
stored with `None` both yield `none`. -/
def Schema.get (s : Schema) (name : String) : Option Addr :=
  (s.lookup name).bind id

/-- `MODEL_PROPERTIES["zhimi.heater.mc2"]` from `const.py`. -/
def mc2_properties : Schema :=
  [("power", some (2, 1)),
   ("target_temperature", some (2, 5)),
   ("current_temperature", some (4, 7)),
   ("humidity", none)]

/-- `MODEL_PROPERTIES["zhimi.heater.zb1"]` from `const.py`. -/
def zb1_properties : Schema :=
  [("power", some (2, 2)),
   ("target_temperature", some (2, 6)),
   ("current_temperature", some (5, 8)),
   ("humidity", some (5, 7))]

/-- `MODEL_PROPERTIES["zhimi.heater.za2"]` from `const.py`. -/
def za2_properties : Schema :=
  [("power", some (2, 2)),
   ("target_temperature", some (2, 6)),
   ("current_temperature", some (5, 8)),
   ("humidity", some (5, 7))]

/-- The `MODEL_PROPERTIES` registry from `const.py`. -/
def MODEL_PROPERTIES : List (String × Schema) :=
  [("zhimi.heater.mc2", mc2_properties),
   ("zhimi.heater.zb1", zb1_properties),
   ("zhimi.heater.za2", za2_properties)]

/-- The exceptions raised on the write paths of `climate.py`, one constructor
per raise site:
`notSupported f` for the entity-level checks raising
`UpdateFailed(f + " is not supported by this model")` (lines 278, 284, 290, 298);
`dimNotSupported` for line 292; `delayOffOutOfRange` for line 302;
`propertyNotSupported` for the API-level raise at line 128; and `keyError` for
the Python `KeyError` raised by the dict lookup at line 108. -/
inductive WriteError where
  | notSupported (feature : String)
  | dimNotSupported
  | delayOffOutOfRange (minSeconds maxSeconds : Int)
  | propertyNotSupported (name : String)
  | keyError (key : String)
deriving DecidableEq, Repr

/-- One `set_properties` transport call, as built at `climate.py` line 131. -/
structure SetCall where
  siid : Nat
  piid : Nat
  value : PropValue
deriving DecidableEq, Repr

/-- Outcome of a write path: the `set_properties` transport calls issued, in
order, and the exception raised, if any.  In the source every raise on these
paths precedes the transport `await`, so an error always comes with an empty
call list. -/
structure OpResult where
  calls : List SetCall
  error : Option WriteError
deriving DecidableEq, Repr

/-- Successful completion having issued the given transport calls. -/
def OpResult.ok (calls : List SetCall) : OpResult := ⟨calls, none⟩

/-- An exception raised before any transport call. -/
def OpResult.fail (e : WriteError) : OpResult := ⟨[], some e⟩

/-- The `MiHeaterApi` object: its `_model` and `_properties` fields. -/
structure MiHeaterApi where
  model : String
  properties : Schema
deriving DecidableEq, Repr

/-- `MiHeaterApi._async_set_property` (climate.py lines 125-132): look the
name up in the schema, raise `UpdateFailed` if it is `None`, otherwise issue
one `set_properties` call. -/
def MiHeaterApi._async_set_property (api : MiHeaterApi) (name : String)
    (value : PropValue) : OpResult :=
  match Schema.get api.properties name with
  | none => OpResult.fail (WriteError.propertyNotSupported name)
  | some (siid, piid) => OpResult.ok [⟨siid, piid, value⟩]

/-- The dict lookup `{"on": 0, "off": 1, "dim": 2}[brightness]` at
`climate.py` line 108; any other key raises `KeyError` (modelled as `none`). -/
def brightness_to_int : String → Option Int
  | "on" => some 0
  | "off" => some 1
  | "dim" => some 2
  | _ => none

/-- The device integer computed at `climate.py` lines 108-110: the canonical
mapping, inverted (`3 - mapped`) when the model is `zhimi.heater.za2` and the
canonical value is truthy (non-zero). -/
def led_mapped (model : String) (brightness : String) : Option Int :=
  (brightness_to_int brightness).map fun mapped =>
    if model = "zhimi.heater.za2" ∧ mapped ≠ 0 then 3 - mapped else mapped

/-- `MiHeaterApi.async_set_led_brightness` (climate.py lines 106-111). -/
def MiHeaterApi.async_set_led_brightness (api : MiHeaterApi)
    (brightness : String) : OpResult :=
  match led_mapped api.model brightness with
  | none => OpResult.fail (WriteError.keyError brightness)
  | some mapped => api._async_set_property "led_brightness" (.int mapped)

/-- `MiHeaterApi.async_set_delay_off` (climate.py lines 113-116):
`hours = int(seconds // 3600)` (Python floor division) written to
`countdown_time`. -/
def MiHeaterApi.async_set_delay_off (api : MiHeaterApi) (seconds : Int) :
    OpResult :=
  api._async_set_property "countdown_time" (.int (Int.fdiv seconds 3600))

/-- `MiHeaterApi.async_set_temperature` (climate.py lines 90-92). -/
def MiHeaterApi.async_set_temperature (api : MiHeaterApi)
    (temperature : Int) : OpResult :=
  api._async_set_property "target_temperature" (.int temperature)

/-- `MiHeaterApi.async_set_power` (climate.py lines 94-96). -/
def MiHeaterApi.async_set_power (api : MiHeaterApi) (b : Bool) : OpResult :=
  api._async_set_property "power" (.bool b)

/-- `MiHeaterApi.async_set_child_lock` (climate.py lines 98-100). -/
def MiHeaterApi.async_set_child_lock (api : MiHeaterApi) (enabled : Bool) :
    OpResult :=
  api._async_set_property "child_lock" (.bool enabled)

/-- `MiHeaterApi.async_set_buzzer` (climate.py lines 102-104). -/
def MiHeaterApi.async_set_buzzer (api : MiHeaterApi) (enabled : Bool) :
    OpResult :=
  api._async_set_property "buzzer" (.bool enabled)

/-- One entry of the `get_properties` response list: its `siid`, `piid`,
status `code` and optional `value` (Python `value.get("value")`). -/
structure PropResponse where
  siid : Nat
  piid : Nat
  code : Int
  value : Option PropValue
deriving DecidableEq, Repr

/-- `MiHeaterApi._build_property_map` (climate.py lines 118-123): the schema
entries whose address is not `None`, in schema order. -/
def build_property_map (s : Schema) : List (String × Addr) :=
  s.filterMap fun kv => kv.2.map fun a => (kv.1, a)

/-- The dict comprehension at `climate.py` lines 75-79 followed by
`values_by_key.get((siid, piid))` at line 81: the value recorded for an
address is that of the last response entry with status code 0 at that address
(a later duplicate key overwrites an earlier one in a Python dict
comprehension); an address with no code-0 entry, or whose entry has no
`value` field, yields `none`. -/
def lookup_value (values : List PropResponse) (a : Addr) : Option PropValue :=
  (values.reverse.find? fun w =>
      w.code == 0 && (w.siid == a.1 && w.piid == a.2)).bind PropResponse.value

/-- The `data` dict built by the loop at `climate.py` lines 80-81. -/
def status_data (s : Schema) (values : List PropResponse) :
    List (String × Option PropValue) :=
  (build_property_map s).map fun ka => (ka.1, lookup_value values ka.2)

/-- The value stored under `data["delay_off"]` at `climate.py` lines 83-86:
`int(data["countdown_time"]) * 3600` when `data.get("countdown_time")` is not
`None`, otherwise `None`. -/
def delay_off_value (data : List (String × Option PropValue)) :
    Option PropValue :=
  match (data.lookup "countdown_time").bind id with
  | some v => some (.int (v.toInt * 3600))
  | none => none

/-- Python dict assignment `d[k] = v`: replace the value of an existing key in
place, otherwise append the new pair at the end. -/
def dict_set (d : List (String × Option PropValue)) (k : String)
    (v : Option PropValue) : List (String × Option PropValue) :=
  match d with
  | [] => [(k, v)]
  | p :: rest => if p.1 = k then (k, v) :: rest else p :: dict_set rest k v

/-- `MiHeaterApi.async_get_status` (climate.py lines 59-88), as the function
from the `get_properties` response list to the returned `data` dict.  The
transport-exception branch (lines 70-73) aborts before any of this runs and
is outside this function; a per-property non-zero status code never raises. -/
def async_get_status (s : Schema) (values : List PropResponse) :
    List (String × Option PropValue) :=
  dict_set (status_data s values) "delay_off" (delay_off_value (status_data s values))

/-- Modelled from the spec: climate.py imports `DEFAULT_MIN_TEMP` from
`const.py`, but the `const.py` in src does not define it; per spec section 3
missing limits fall back to documented defaults, and `const.py` documents
`MIN_TEMP = 18`. -/
def DEFAULT_MIN_TEMP : Int := 18

/-- Modelled from the spec: climate.py imports `DEFAULT_MAX_TEMP` from
`const.py`, but the `const.py` in src does not define it; per spec section 3
missing limits fall back to documented defaults, and `const.py` documents
`MAX_TEMP = 28`. -/
def DEFAULT_MAX_TEMP : Int := 28

/-- Modelled from the spec: the per-model limits dict of spec section 3
(ModelLimits) — a target-temperature range and an optional delay-off hour
range (`self._limits.get("delay_off_range", (0, 12))` supplies the default
when the key is absent). -/
structure ModelLimits where
  temperature_range : Int × Int
  delay_off_range : Option (Int × Int)
deriving DecidableEq, Repr

/-- Modelled from the spec: climate.py imports the `MODEL_LIMITS` registry
from `const.py`, but the `const.py` in src does not define it; its contents
are unknown, so it is modelled as empty and every model falls back to the
documented defaults, as spec section 3 prescribes for missing entries. -/
def MODEL_LIMITS : List (String × ModelLimits) := []

/-- The `limits` computed in `MiHeaterEntity.__init__` (climate.py lines
208-211): `MODEL_LIMITS.get(model, default)` where the default dict carries
only the default temperature range. -/
def limits_for (model : String) : ModelLimits :=
  (MODEL_LIMITS.lookup model).getD
    ⟨(DEFAULT_MIN_TEMP, DEFAULT_MAX_TEMP), none⟩

/-- The `MiHeaterEntity` object: the fields of `__init__` that the write and
decode paths read (`_model`, `_properties`, `_limits`). -/
structure MiHeaterEntity where
  model : String
  properties : Schema
  limits : ModelLimits
deriving DecidableEq, Repr

/-- The `MiHeaterApi` paired with an entity in `async_setup_entry`: both are
built from the same model and hence the same schema. -/
def MiHeaterEntity.api (e : MiHeaterEntity) : MiHeaterApi :=
  ⟨e.model, e.properties⟩

/-- `MiHeaterEntity.async_set_temperature` (climate.py lines 262-267):
return silently when no temperature is supplied, otherwise forward
`int(temperature)` to the API with no range check. -/
def MiHeaterEntity.async_set_temperature (e : MiHeaterEntity)
    (temperature : Option Int) : OpResult :=
  match temperature with
  | none => OpResult.ok []
  | some t => e.api.async_set_temperature t

/-- `MiHeaterEntity.async_set_child_lock` (climate.py lines 276-280). -/
def MiHeaterEntity.async_set_child_lock (e : MiHeaterEntity) (lock : Bool) :
    OpResult :=
  if (Schema.get e.properties "child_lock").isNone then
    OpResult.fail (WriteError.notSupported "Child lock")
  else e.api.async_set_child_lock lock

/-- `MiHeaterEntity.async_set_buzzer` (climate.py lines 282-286). -/
def MiHeaterEntity.async_set_buzzer (e : MiHeaterEntity) (enabled : Bool) :
    OpResult :=
  if (Schema.get e.properties "buzzer").isNone then
    OpResult.fail (WriteError.notSupported "Buzzer")
  else e.api.async_set_buzzer enabled

/-- `MiHeaterEntity.async_set_led_brightness` (climate.py lines 288-294):
reject when the model has no `led_brightness` address, then reject `dim` for
any model other than `zhimi.heater.za2`, then delegate to the API. -/
def MiHeaterEntity.async_set_led_brightness (e : MiHeaterEntity)
    (brightness : String) : OpResult :=
  if (Schema.get e.properties "led_brightness").isNone then
    OpResult.fail (WriteError.notSupported "LED brightness")
  else if brightness = "dim" ∧ e.model ≠ "zhimi.heater.za2" then
    OpResult.fail WriteError.dimNotSupported
  else e.api.async_set_led_brightness brightness

/-- `MiHeaterEntity.async_set_delay_off` (climate.py lines 296-306): reject
when the model has no `countdown_time` address, then range-check the seconds
against the model's hour range converted to seconds, then delegate. -/
def MiHeaterEntity.async_set_delay_off (e : MiHeaterEntity) (seconds : Int) :
    OpResult :=
  if (Schema.get e.properties "countdown_time").isNone then
    OpResult.fail (WriteError.notSupported "Delay off")
  else
    let hr := e.limits.delay_off_range.getD (0, 12)
    let min_seconds := hr.1 * 3600
    let max_seconds := hr.2 * 3600
    if seconds < min_seconds ∨ seconds > max_seconds then
      OpResult.fail (WriteError.delayOffOutOfRange min_seconds max_seconds)
    else e.api.async_set_delay_off seconds

/-- `MiHeaterEntity._normalize_led_brightness` (climate.py lines 308-311):
invert a truthy value when the model is `zhimi.heater.za2`, then map through
`{0: "on", 1: "off", 2: "dim"}` with default `"unknown"`.  Total: it never
raises. -/
def MiHeaterEntity._normalize_led_brightness (e : MiHeaterEntity)
    (value : Int) : String :=
  let v := if e.model = "zhimi.heater.za2" ∧ value ≠ 0 then 3 - value else value
  if v = 0 then "on" else if v = 1 then "off" else if v = 2 then "dim"
  else "unknown"

/-- The entity built by `async_setup_entry` for a given model and schema. -/
def mkEntity (model : String) (schema : Schema) : MiHeaterEntity :=
  ⟨model, schema, limits_for model⟩

/-- The entity for model `zhimi.heater.mc2` with its registry schema. -/
def mc2Entity : MiHeaterEntity := mkEntity "zhimi.heater.mc2" mc2_properties

/-- The entity for model `zhimi.heater.zb1` with its registry schema. -/
def zb1Entity : MiHeaterEntity := mkEntity "zhimi.heater.zb1" zb1_properties

/-- The entity for model `zhimi.heater.za2` with its registry schema. -/
def za2Entity : MiHeaterEntity := mkEntity "zhimi.heater.za2" za2_properties

/-- A hypothetical schema supporting every feature, used as concrete input in
witnesses (no shipped model supports the optional features, so witnesses for
the feature paths need a schema that does). -/
def testSchema : Schema :=
  [("power", some (2, 1)),
   ("target_temperature", some (2, 5)),
   ("current_temperature", some (4, 7)),
   ("humidity", none),
   ("child_lock", some (5, 1)),
   ("buzzer", some (6, 1)),
   ("led_brightness", some (7, 1)),
   ("countdown_time", some (8, 1))]

/-- A `zhimi.heater.za2` entity over `testSchema`, for witnesses. -/
def testEntity : MiHeaterEntity := mkEntity "zhimi.heater.za2" testSchema

/-- A `zhimi.heater.mc2` entity over `testSchema`, for witnesses needing a
non-inverted model with feature support. -/
def testEntityMc2 : MiHeaterEntity := mkEntity "zhimi.heater.mc2" testSchema

/-- Modelled from the spec: the polling coordinator (Home Assistant's
`DataUpdateCoordinator`, instantiated at climate.py lines 149-157) is not
part of src; its state per spec sections 3-5: whether a fetch is in flight,
the identity of the current fetch, how many `get_properties` transport reads
have been issued, and, for each pending requester, the identity of the fetch
whose result it will observe. -/
structure CoordState where
  fetching : Bool
  fetchId : Nat
  transportReads : Nat
  waiters : List Nat
deriving DecidableEq, Repr

/-- Modelled from the spec: `requestRefresh()` per spec section 4.4 — when a
fetch is in flight the call coalesces onto it (no new transport read); when
idle it starts a new fetch, issuing one transport read. -/
def requestRefresh (s : CoordState) : CoordState :=
  if s.fetching then { s with waiters := s.fetchId :: s.waiters }
  else
    { fetching := true, fetchId := s.fetchId + 1,
      transportReads := s.transportReads + 1,
      waiters := (s.fetchId + 1) :: s.waiters }

/-- Modelled from the spec: completion of the in-flight fetch per spec
section 4.4 — the coordinator returns to idle and every pending requester is
delivered the identity of the fetch it observed. -/
def completeFetch (s : CoordState) : CoordState × List Nat :=
  ({ s with fetching := false, waiters := [] }, s.waiters)

/-- Response list used as the concrete batched read in the C5 witness: the
`zhimi.heater.zb1` properties, with humidity carrying status code 1. -/
def c5_values : List PropResponse :=
  [⟨2, 2, 0, some (.bool true)⟩,
   ⟨2, 6, 0, some (.int 22)⟩,
   ⟨5, 8, 0, some (.int 21)⟩,
   ⟨5, 7, 1, none⟩]

/-! ### Helper lemmas about the embedded dictionary operations -/

/-- Looking a key up in a value-mapped association list maps the result. -/
theorem lookup_map_snd (pm : List (String × Addr))
    (f : Addr → Option PropValue) (k : String) :
    (pm.map fun ka => (ka.1, f ka.2)).lookup k = (pm.lookup k).map f := by
  induction pm with
  | nil => rfl
  | cons p t ih =>
    cases hk : (k == p.1) <;> simp [List.lookup, hk, ih]

/-- After a Python dict assignment the assigned key holds the new value. -/
theorem dict_set_lookup_self (d : List (String × Option PropValue)) (k : String)
    (v : Option PropValue) : (dict_set d k v).lookup k = some v := by
  induction d with
  | nil => simp [dict_set, List.lookup]
  | cons p t ih =>
    rcases p with ⟨pk, pv⟩
    by_cases h : pk = k
    · subst h; simp [dict_set, List.lookup]
    · have hk : (k == pk) = false := by simpa using Ne.symm h
      simp [dict_set, h, List.lookup, hk, ih]

/-- A Python dict assignment leaves every other key unchanged. -/
theorem dict_set_lookup_other (d : List (String × Option PropValue))
    (k : String) (v : Option PropValue) (k' : String) (h : ¬ k' = k) :
    (dict_set d k v).lookup k' = d.lookup k' := by
  induction d with
  | nil =>
    have hk : (k' == k) = false := by simpa using h
    simp [dict_set, List.lookup, hk]
  | cons p t ih =>
    rcases p with ⟨pk, pv⟩
    by_cases h1 : pk = k
    · subst h1
      have hk : (k' == pk) = false := by simpa using h
      simp [dict_set, List.lookup, hk]
    · cases hk : (k' == pk) <;> simp [dict_set, h1, List.lookup, hk, ih]

/-- A schema key whose stored address is non-null resolves to the same address
through `_build_property_map`. -/
theorem build_property_map_lookup (s : Schema) (k : String) (a : Addr)
    (h : Schema.get s k = some a) :
    (build_property_map s).lookup k = some a := by
  induction s with
  | nil => simp [Schema.get] at h
  | cons p t ih =>
    rcases p with ⟨pk, pv⟩
    by_cases hk : pk = k
    · subst hk
      have hpv : pv = some a := by simpa [Schema.get, List.lookup] using h
      subst hpv
      simp [build_property_map, List.lookup]
    · have hkf : (k == pk) = false := by simpa using Ne.symm hk
      have h' : Schema.get t k = some a := by
        simpa [Schema.get, List.lookup, hkf] using h
      cases pv with
      | none => simpa [build_property_map] using ih h'
      | some b =>
        simpa [build_property_map, List.lookup, hkf] using ih h'

/-- `find?` over a list holding at most one entry for an address: the result
is that entry when its status code is 0, and nothing otherwise. -/
theorem find_of_unique (a : Addr) (l : List PropResponse) (v : PropResponse)
    (hv : v ∈ l) (hs : v.siid = a.1) (hp : v.piid = a.2)
    (huniq : ∀ w ∈ l, w.siid = a.1 → w.piid = a.2 → w = v) :
    (l.find? fun w => w.code == 0 && (w.siid == a.1 && w.piid == a.2))
      = if v.code = 0 then some v else none := by
  induction l with
  | nil => cases hv
  | cons x t ih =>
    by_cases hx : (x.code == 0 && (x.siid == a.1 && x.piid == a.2)) = true
    · simp only [List.find?_cons, hx]
      have hx' : x.code = 0 ∧ x.siid = a.1 ∧ x.piid = a.2 := by simpa using hx
      have hxv : x = v := huniq x (List.mem_cons_self x t) hx'.2.1 hx'.2.2
      rw [if_pos (hxv ▸ hx'.1)]
      exact congrArg some hxv
    · have hxf : (x.code == 0 && (x.siid == a.1 && x.piid == a.2)) = false := by
        simpa using hx
      simp only [List.find?_cons, hxf]
      rcases List.mem_cons.mp hv with rfl | hvt
      · have hvc : ¬ v.code = 0 := by
          intro hc; exact hx (by simp [hc, hs, hp])
        rw [if_neg hvc]
        apply List.find?_eq_none.mpr
        intro w hw
        intro hpw
        have hw' : w.code = 0 ∧ w.siid = a.1 ∧ w.piid = a.2 := by simpa using hpw
        have hwv : w = v := huniq w (List.mem_cons_of_mem _ hw) hw'.2.1 hw'.2.2
        exact hvc (hwv ▸ hw'.1)
      · exact ih hvt (fun w hw => huniq w (List.mem_cons_of_mem _ hw))

/-- `values_by_key.get` semantics when the batched response carries exactly
one entry for the requested address: the entry's value when its status code
is 0, absent otherwise. -/
theorem lookup_value_of_unique (values : List PropResponse) (a : Addr)
    (v : PropResponse) (hv : v ∈ values) (hs : v.siid = a.1) (hp : v.piid = a.2)
    (huniq : ∀ w ∈ values, w.siid = a.1 → w.piid = a.2 → w = v) :
    lookup_value values a = if v.code = 0 then v.value else none := by
  unfold lookup_value
  rw [find_of_unique a values.reverse v (List.mem_reverse.mpr hv) hs hp
    (fun w hw => huniq w (List.mem_reverse.mp hw))]
  by_cases hc : v.code = 0
  · rw [if_pos hc, if_pos hc]; rfl
  · rw [if_neg hc, if_neg hc]; rfl

/-- Any snapshot key other than `delay_off` is the per-address lookup of the
schema's entry for that key. -/
theorem status_lookup_ne_delay_off (s : Schema) (values : List PropResponse)
    (k : String) (hk : ¬ k = "delay_off") :
    (async_get_status s values).lookup k
      = ((build_property_map s).lookup k).map (lookup_value values) := by
  unfold async_get_status status_data
  rw [dict_set_lookup_other _ _ _ _ hk]
  exact lookup_map_snd _ _ _

/-- When the schema has no non-null `countdown_time` address, the snapshot's
`delay_off` entry is present and `None`. -/
theorem status_delay_off_none (s : Schema) (values : List PropResponse)
    (h : (build_property_map s).lookup "countdown_time" = none) :
    (async_get_status s values).lookup "delay_off" = some none := by
  unfold async_get_status
  rw [dict_set_lookup_self]
  unfold delay_off_value status_data
  rw [lookup_map_snd, h]
  rfl

/-- When the batched read returns a value for the `countdown_time` address,
the snapshot's `delay_off` entry is that value times 3600. -/
theorem status_delay_off_some (s : Schema) (values : List PropResponse)
    (a : Addr) (w : PropValue)
    (h : (build_property_map s).lookup "countdown_time" = some a)
    (hv : lookup_value values a = some w) :
    (async_get_status s values).lookup "delay_off"
      = some (some (.int (w.toInt * 3600))) := by
  unfold async_get_status
  rw [dict_set_lookup_self]
  unfold delay_off_value status_data
  rw [lookup_map_snd, h]
  simp [hv]

/-- Iterating `requestRefresh` from a state with a fetch in flight only
appends waiters observing the in-flight fetch; no field else changes. -/
theorem requestRefresh_iterate (n : Nat) (s : CoordState)
    (h : s.fetching = true) :
    requestRefresh^[n] s
      = { s with waiters := List.replicate n s.fetchId ++ s.waiters } := by
  induction n generalizing s with
  | zero => simp
  | succ n ih =>
    rw [Function.iterate_succ_apply]
    have h1 : requestRefresh s = { s with waiters := s.fetchId :: s.waiters } := by
      simp [requestRefresh, h]
    rw [h1, ih { s with waiters := s.fetchId :: s.waiters } h]
    have h2 : List.replicate (n + 1) s.fetchId ++ s.waiters
        = List.replicate n s.fetchId ++ (s.fetchId :: s.waiters) := by
      simp [List.replicate_succ', List.append_assoc]
    rw [h2]

/-! ### Claim theorems -/

/-- Claim C2: for the model with inverted brightness encoding
(`zhimi.heater.za2`), decoding the device integer produced by encoding
returns the original logical level, for each level in on, off, dim. -/
theorem C2_brightness_roundtrip :
    (led_mapped "zhimi.heater.za2" "on").map za2Entity._normalize_led_brightness
      = some "on" ∧
    (led_mapped "zhimi.heater.za2" "off").map za2Entity._normalize_led_brightness
      = some "off" ∧
    (led_mapped "zhimi.heater.za2" "dim").map za2Entity._normalize_led_brightness
      = some "dim" := by decide

/-- Claim C3 counterexample: the canonical device integer for level `on` is 0,
and on `zhimi.heater.za2` the integer actually written for `on` is also 0,
not `3 - 0 = 3`: the inversion is skipped for a falsy (zero) canonical value,
so the claim "the written integer equals 3 minus the canonical integer for
every level" fails at `on`. -/
theorem C3_counterexample :
    led_mapped "zhimi.heater.mc2" "on" = some 0 ∧
    led_mapped "zhimi.heater.za2" "on" = some 0 ∧
    (MiHeaterApi.async_set_led_brightness ⟨"zhimi.heater.za2", testSchema⟩ "on")
      = OpResult.ok [⟨7, 1, PropValue.int 0⟩] ∧
    ¬ ((0 : Int) = 3 - 0) := by decide

/-- Claim C3 as amended: on `zhimi.heater.za2` the device integer written for
`off` and `dim` equals 3 minus the canonical integer (off: 1 becomes 2, dim:
2 becomes 1), while `on` writes the canonical 0 unchanged because the
inversion applies only to non-zero (truthy) canonical values; other models
write the canonical integers. -/
theorem C3_amended_inversion :
    (MiHeaterApi.async_set_led_brightness ⟨"zhimi.heater.za2", testSchema⟩ "off")
      = OpResult.ok [⟨7, 1, PropValue.int (3 - 1)⟩] ∧
    (MiHeaterApi.async_set_led_brightness ⟨"zhimi.heater.za2", testSchema⟩ "dim")
      = OpResult.ok [⟨7, 1, PropValue.int (3 - 2)⟩] ∧
    (MiHeaterApi.async_set_led_brightness ⟨"zhimi.heater.za2", testSchema⟩ "on")
      = OpResult.ok [⟨7, 1, PropValue.int 0⟩] ∧
    (MiHeaterApi.async_set_led_brightness ⟨"zhimi.heater.mc2", testSchema⟩ "on")
      = OpResult.ok [⟨7, 1, PropValue.int 0⟩] ∧
    (MiHeaterApi.async_set_led_brightness ⟨"zhimi.heater.mc2", testSchema⟩ "off")
      = OpResult.ok [⟨7, 1, PropValue.int 1⟩] ∧
    (MiHeaterApi.async_set_led_brightness ⟨"zhimi.heater.mc2", testSchema⟩ "dim")
      = OpResult.ok [⟨7, 1, PropValue.int 2⟩] := by decide

/-- Claim C7 counterexample: on `zhimi.heater.za2` the decoded integer 3 lies
outside the model's known brightness encodings (the written integers are 0,
2, 1 for on, off, dim), yet normalization maps it to `"on"` — the inversion
`3 - 3 = 0` lands on a known code — rather than to `"unknown"`. -/
theorem C7_counterexample :
    ¬ led_mapped "zhimi.heater.za2" "on" = some 3 ∧
    ¬ led_mapped "zhimi.heater.za2" "off" = some 3 ∧
    ¬ led_mapped "zhimi.heater.za2" "dim" = some 3 ∧
    za2Entity._normalize_led_brightness 3 = "on" ∧
    ¬ za2Entity._normalize_led_brightness 3 = "unknown" := by decide

/-- Claim C7 as amended: normalization never raises (it is a total function),
and it returns the `"unknown"` sentinel for every decoded integer outside
0, 1, 2 on a non-inverted model and outside 0, 1, 2, 3 on
`zhimi.heater.za2`; the single exception forced by the counterexample is the
integer 3 on `zhimi.heater.za2`, which decodes to `"on"`. -/
theorem C7_amended_unknown (e : MiHeaterEntity) (v : Int)
    (h1 : ¬ e.model = "zhimi.heater.za2" → ¬ (v = 0 ∨ v = 1 ∨ v = 2))
    (h2 : e.model = "zhimi.heater.za2" → ¬ (v = 0 ∨ v = 1 ∨ v = 2 ∨ v = 3)) :
    e._normalize_led_brightness v = "unknown" := by
  unfold MiHeaterEntity._normalize_led_brightness
  by_cases hm : e.model = "zhimi.heater.za2"
  · have hv : ¬ (v = 0 ∨ v = 1 ∨ v = 2 ∨ v = 3) := h2 hm
    push_neg at hv
    have e0 : ¬ (3 - v = 0) := by omega
    have e1 : ¬ (3 - v = 1) := by omega
    have e2 : ¬ (3 - v = 2) := by omega
    have hcond : e.model = "zhimi.heater.za2" ∧ v ≠ 0 := ⟨hm, hv.1⟩
    rw [if_pos hcond, if_neg e0, if_neg e1, if_neg e2]
  · have hv : ¬ (v = 0 ∨ v = 1 ∨ v = 2) := h1 hm
    push_neg at hv
    have ec : ¬ (e.model = "zhimi.heater.za2" ∧ v ≠ 0) := fun hc => hm hc.1
    rw [if_neg ec, if_neg hv.1, if_neg hv.2.1, if_neg hv.2.2]

/-- Claim C7 amended witness: the out-of-range integer 7 on
`zhimi.heater.mc2` normalizes to the unknown sentinel. -/
theorem C7_amended_unknown_witness :
    mc2Entity._normalize_led_brightness 7 = "unknown" :=
  C7_amended_unknown mc2Entity 7 (fun _ => by decide) (fun hm => absurd hm (by decide))

/-- Claim C9: for every supported model in the compiled-in registry, the
non-null property addresses of its schema are pairwise distinct. -/
theorem C9_addresses_distinct (model : String) (schema : Schema)
    (hmem : (model, schema) ∈ MODEL_PROPERTIES) :
    ((build_property_map schema).map Prod.snd).Nodup := by
  simp only [ MODEL_PROPERTIES, List.mem_cons, List.not_mem_nil, or_false,
    Prod.mk.injEq] at hmem
  rcases hmem with ⟨rfl, rfl⟩ | ⟨rfl, rfl⟩ | ⟨rfl, rfl⟩ <;> decide

/-- Claim C9 witness: the `zhimi.heater.mc2` schema's addresses are pairwise
distinct. -/
theorem C9_addresses_distinct_witness :
    ((build_property_map mc2_properties).map Prod.snd).Nodup :=
  C9_addresses_distinct "zhimi.heater.mc2" mc2_properties (by decide)

/-- Claim C6: on every model whose schema has no `child_lock` address,
setting the child lock fails with the unsupported-feature error (the raise at
climate.py line 278) and issues zero transport calls. -/
theorem C6_child_lock_unsupported (e : MiHeaterEntity) (lock : Bool)
    (h : Schema.get e.properties "child_lock" = none) :
    e.async_set_child_lock lock
      = OpResult.fail (WriteError.notSupported "Child lock") ∧
    (e.async_set_child_lock lock).calls = [] := by
  constructor <;> simp [MiHeaterEntity.async_set_child_lock, h, OpResult.fail]

/-- Claim C6 witness: setting the child lock on the shipped
`zhimi.heater.mc2` entity fails as unsupported with no transport call. -/
theorem C6_child_lock_unsupported_witness :
    mc2Entity.async_set_child_lock true
      = OpResult.fail (WriteError.notSupported "Child lock") ∧
    (mc2Entity.async_set_child_lock true).calls = [] :=
  C6_child_lock_unsupported mc2Entity true (by decide)

/-- Claim C10: single-flight refresh (modelled from the spec, since the
coordinator implementation is Home Assistant library code outside src).  Any
number of `requestRefresh` calls arriving while a fetch is in flight leave
the transport-read count unchanged — exactly the one read of the in-flight
fetch is ever issued — and on completion every one of those requesters
observes the result of that same in-flight fetch. -/
theorem C10_single_flight (s : CoordState) (n : Nat) (h : s.fetching = true) :
    (requestRefresh^[n] s).transportReads = s.transportReads ∧
    (requestRefresh^[n] s).fetching = true ∧
    (completeFetch (requestRefresh^[n] s)).2
      = List.replicate n s.fetchId ++ s.waiters := by
  rw [requestRefresh_iterate n s h]
  exact ⟨rfl, h, rfl⟩

/-- Claim C10 witness: five refresh requests arriving during fetch number 1
issue no further transport read and all observe fetch 1. -/
theorem C10_single_flight_witness :
    (requestRefresh^[5] (⟨true, 1, 1, []⟩ : CoordState)).transportReads = 1 ∧
    (completeFetch (requestRefresh^[5] (⟨true, 1, 1, []⟩ : CoordState))).2
      = List.replicate 5 1 ++ [] :=
  ⟨(C10_single_flight ⟨true, 1, 1, []⟩ 5 rfl).1,
   (C10_single_flight ⟨true, 1, 1, []⟩ 5 rfl).2.2⟩

/-- Claim C1 counterexample: 1000 lies outside the configured temperature
range of the `zhimi.heater.mc2` entity (the modelled default 18..28), yet
`async_set_temperature` raises no validation error and issues the
`set_properties` transport call carrying 1000: the temperature write path
performs no local range check. -/
theorem C1_counterexample :
    mc2Entity.limits.temperature_range = (DEFAULT_MIN_TEMP, DEFAULT_MAX_TEMP) ∧
    DEFAULT_MAX_TEMP < 1000 ∧
    mc2Entity.async_set_temperature (some 1000)
      = OpResult.ok [⟨2, 5, PropValue.int 1000⟩] := by decide

/-- Claim C1 as amended: a delay-off seconds value outside the model's
configured hour range fails with an error and zero transport calls, and a
brightness level invalid for the model (`dim` on a non-inverted model, or a
level outside on/off/dim) fails with an error and zero transport calls; the
target-temperature write, however, is not locally validated — any integer is
forwarded to the transport unchanged. -/
theorem C1_amended_validation (e : MiHeaterEntity) (sec t : Int) (b : String)
    (a : Addr)
    (hsec : sec < (e.limits.delay_off_range.getD (0, 12)).1 * 3600 ∨
      sec > (e.limits.delay_off_range.getD (0, 12)).2 * 3600)
    (hb : (b = "dim" ∧ ¬ e.model = "zhimi.heater.za2") ∨
      brightness_to_int b = none)
    (ht : Schema.get e.properties "target_temperature" = some a) :
    ((e.async_set_delay_off sec).calls = [] ∧
      (e.async_set_delay_off sec).error.isSome = true) ∧
    ((e.async_set_led_brightness b).calls = [] ∧
      (e.async_set_led_brightness b).error.isSome = true) ∧
    e.async_set_temperature (some t)
      = OpResult.ok [⟨a.1, a.2, PropValue.int t⟩] := by
  obtain ⟨a1, a2⟩ := a
  refine ⟨?_, ?_, ?_⟩
  · by_cases hg : (Schema.get e.properties "countdown_time").isNone = true
    · simp [MiHeaterEntity.async_set_delay_off, hg, OpResult.fail]
    · unfold MiHeaterEntity.async_set_delay_off
      rw [if_neg hg, if_pos hsec]
      exact ⟨rfl, rfl⟩
  · by_cases hl : (Schema.get e.properties "led_brightness").isNone = true
    · simp [MiHeaterEntity.async_set_led_brightness, hl, OpResult.fail]
    · unfold MiHeaterEntity.async_set_led_brightness
      rw [if_neg hl]
      rcases hb with ⟨hb1, hb2⟩ | hbn
      · have hcond : b = "dim" ∧ e.model ≠ "zhimi.heater.za2" := ⟨hb1, hb2⟩
        rw [if_pos hcond]
        exact ⟨rfl, rfl⟩
      · have hbd : ¬ (b = "dim" ∧ e.model ≠ "zhimi.heater.za2") := by
          rintro ⟨rfl, -⟩
          simp [brightness_to_int] at hbn
        rw [if_neg hbd]
        simp [MiHeaterApi.async_set_led_brightness, led_mapped, hbn,
          OpResult.fail]
  · unfold MiHeaterEntity.async_set_temperature
    simp [MiHeaterApi.async_set_temperature, MiHeaterApi._async_set_property,
      MiHeaterEntity.api, ht]

/-- Claim C1 amended witness: on a feature-complete schema, a delay-off of
-1 seconds and the brightness level `bogus` error out with no transport
call, while the out-of-range temperature 1000 is forwarded. -/
theorem C1_amended_validation_witness :
    ((testEntity.async_set_delay_off (-1)).calls = [] ∧
      (testEntity.async_set_delay_off (-1)).error.isSome = true) ∧
    ((testEntity.async_set_led_brightness "bogus").calls = [] ∧
      (testEntity.async_set_led_brightness "bogus").error.isSome = true) ∧
    testEntity.async_set_temperature (some 1000)
      = OpResult.ok [⟨2, 5, PropValue.int 1000⟩] :=
  C1_amended_validation testEntity (-1) 1000 "bogus" (2, 5)
    (Or.inl (by decide)) (Or.inr (by decide)) (by decide)

/-- Claim C4: the delay-off write stores `seconds` floor-divided by 3600 as
device hours, and a subsequent read whose response returns those hours with
status code 0 yields a `delay_off` of `(seconds div 3600) * 3600` seconds in
the snapshot — the sub-hour remainder is discarded. -/
theorem C4_delay_off_roundtrip (e : MiHeaterEntity) (s : Int) (a : Addr)
    (values : List PropResponse)
    (ha : Schema.get e.properties "countdown_time" = some a)
    (hok : (e.async_set_delay_off s).error = none)
    (hread : lookup_value values a = some (PropValue.int (Int.fdiv s 3600))) :
    e.async_set_delay_off s
      = OpResult.ok [⟨a.1, a.2, PropValue.int (Int.fdiv s 3600)⟩] ∧
    (async_get_status e.properties values).lookup "delay_off"
      = some (some (PropValue.int (Int.fdiv s 3600 * 3600))) := by
  obtain ⟨a1, a2⟩ := a
  constructor
  · unfold MiHeaterEntity.async_set_delay_off at hok ⊢
    rw [ha] at hok ⊢
    simp only [Option.isNone_some, Bool.false_eq_true, if_false] at hok ⊢
    split at hok
    · simp [OpResult.fail] at hok
    next hC =>
      rw [if_neg hC]
      simp [MiHeaterApi.async_set_delay_off, MiHeaterApi._async_set_property,
        MiHeaterEntity.api, ha]
  · exact status_delay_off_some e.properties values (a1, a2)
      (PropValue.int (Int.fdiv s 3600))
      (build_property_map_lookup e.properties "countdown_time" (a1, a2) ha)
      hread

/-- Claim C4 witness: on a feature-complete schema, writing 7200 seconds
stores 2 hours and reads back as 7200 seconds, while writing 5400 seconds
stores 1 hour and reads back as 3600 seconds. -/
theorem C4_delay_off_roundtrip_witness :
    (testEntity.async_set_delay_off 7200
        = OpResult.ok [⟨8, 1, PropValue.int 2⟩] ∧
      (async_get_status testSchema [⟨8, 1, 0, some (.int 2)⟩]).lookup "delay_off"
        = some (some (PropValue.int 7200))) ∧
    (testEntity.async_set_delay_off 5400
        = OpResult.ok [⟨8, 1, PropValue.int 1⟩] ∧
      (async_get_status testSchema [⟨8, 1, 0, some (.int 1)⟩]).lookup "delay_off"
        = some (some (PropValue.int 3600))) :=
  ⟨C4_delay_off_roundtrip testEntity 7200 (8, 1) [⟨8, 1, 0, some (.int 2)⟩]
      (by decide) (by decide) (by decide),
   C4_delay_off_roundtrip testEntity 5400 (8, 1) [⟨8, 1, 0, some (.int 1)⟩]
      (by decide) (by decide) (by decide)⟩

/-- Claim C5: in a batched read carrying exactly one response entry for a
requested property's address, a non-zero status code leaves that property's
snapshot attribute present but absent-valued, while status code 0 populates
it with the returned value; the read itself never fails on a per-property
status code (the embedded `async_get_status` is total). -/
theorem C5_partial_failure (s : Schema) (values : List PropResponse)
    (k : String) (a : Addr) (v : PropResponse)
    (hk : ¬ k = "delay_off")
    (ha : (build_property_map s).lookup k = some a)
    (hv : v ∈ values) (hs : v.siid = a.1) (hp : v.piid = a.2)
    (huniq : ∀ w ∈ values, w.siid = a.1 → w.piid = a.2 → w = v) :
    (¬ v.code = 0 → (async_get_status s values).lookup k = some none) ∧
    (v.code = 0 → (async_get_status s values).lookup k = some v.value) := by
  have hbase : (async_get_status s values).lookup k
      = some (lookup_value values a) := by
    rw [status_lookup_ne_delay_off s values k hk, ha]
    rfl
  rw [lookup_value_of_unique values a v hv hs hp huniq] at hbase
  constructor
  · intro hc
    rw [hbase, if_neg hc]
  · intro hc
    rw [hbase, if_pos hc]

/-- Claim C5 witness: in a `zhimi.heater.zb1` batched read where the humidity
entry carries status code 1 and target temperature carries code 0, humidity
is present but valueless in the snapshot while target temperature holds 22. -/
theorem C5_partial_failure_witness :
    (async_get_status zb1_properties c5_values).lookup "humidity" = some none ∧
    (async_get_status zb1_properties c5_values).lookup "target_temperature"
      = some (some (PropValue.int 22)) :=
  ⟨(C5_partial_failure zb1_properties c5_values "humidity" (5, 7) ⟨5, 7, 1, none⟩
      (by decide) (by decide) (by decide) (by decide) (by decide)
      (by decide)).1 (by decide),
   (C5_partial_failure zb1_properties c5_values "target_temperature" (2, 6)
      ⟨2, 6, 0, some (.int 22)⟩
      (by decide) (by decide) (by decide) (by decide) (by decide)
      (by decide)).2 (by decide)⟩

/-- Every feature path fails as unsupported, with no transport call and an
absent snapshot attribute, on a schema granting none of the four optional
feature addresses. -/
theorem unsupported_feature_paths (model : String) (schema : Schema)
    (limits : ModelLimits) (lock enabled : Bool) (b : String) (sec : Int)
    (values : List PropResponse)
    (h1 : Schema.get schema "child_lock" = none)
    (h2 : Schema.get schema "buzzer" = none)
    (h3 : Schema.get schema "led_brightness" = none)
    (h4 : Schema.get schema "countdown_time" = none)
    (h5 : (build_property_map schema).lookup "child_lock" = none)
    (h6 : (build_property_map schema).lookup "buzzer" = none)
    (h7 : (build_property_map schema).lookup "led_brightness" = none)
    (h8 : (build_property_map schema).lookup "countdown_time" = none) :
    Schema.get schema "child_lock" = none ∧
    Schema.get schema "buzzer" = none ∧
    Schema.get schema "led_brightness" = none ∧
    Schema.get schema "countdown_time" = none ∧
    MiHeaterEntity.async_set_child_lock ⟨model, schema, limits⟩ lock
      = OpResult.fail (WriteError.notSupported "Child lock") ∧
    MiHeaterEntity.async_set_buzzer ⟨model, schema, limits⟩ enabled
      = OpResult.fail (WriteError.notSupported "Buzzer") ∧
    MiHeaterEntity.async_set_led_brightness ⟨model, schema, limits⟩ b
      = OpResult.fail (WriteError.notSupported "LED brightness") ∧
    MiHeaterEntity.async_set_delay_off ⟨model, schema, limits⟩ sec
      = OpResult.fail (WriteError.notSupported "Delay off") ∧
    (async_get_status schema values).lookup "delay_off" = some none ∧
    (async_get_status schema values).lookup "child_lock" = none ∧
    (async_get_status schema values).lookup "buzzer" = none ∧
    (async_get_status schema values).lookup "led_brightness" = none ∧
    (async_get_status schema values).lookup "countdown_time" = none := by
  refine ⟨h1, h2, h3, h4, ?_, ?_, ?_, ?_, ?_, ?_, ?_, ?_, ?_⟩
  · simp [MiHeaterEntity.async_set_child_lock, h1, OpResult.fail]
  · simp [MiHeaterEntity.async_set_buzzer, h2, OpResult.fail]
  · simp [MiHeaterEntity.async_set_led_brightness, h3, OpResult.fail]
  · simp [MiHeaterEntity.async_set_delay_off, h4, OpResult.fail]
  · exact status_delay_off_none schema values h8
  · rw [status_lookup_ne_delay_off schema values _ (by decide), h5]; rfl
  · rw [status_lookup_ne_delay_off schema values _ (by decide), h6]; rfl
  · rw [status_lookup_ne_delay_off schema values _ (by decide), h7]; rfl
  · rw [status_lookup_ne_delay_off schema values _ (by decide), h8]; rfl

/-- Claim C8: no schema in the shipped `MODEL_PROPERTIES` registry carries an
address for child lock, buzzer, LED brightness or countdown time;
consequently, for every supported model and every input, the four feature
writes fail as unsupported before any transport call, and every fetched
snapshot has `delay_off` equal to `None` and lacks those attributes. -/
theorem C8_no_optional_features (model : String) (schema : Schema)
    (limits : ModelLimits) (lock enabled : Bool) (b : String) (sec : Int)
    (values : List PropResponse)
    (hmem : (model, schema) ∈ MODEL_PROPERTIES) :
    Schema.get schema "child_lock" = none ∧
    Schema.get schema "buzzer" = none ∧
    Schema.get schema "led_brightness" = none ∧
    Schema.get schema "countdown_time" = none ∧
    MiHeaterEntity.async_set_child_lock ⟨model, schema, limits⟩ lock
      = OpResult.fail (WriteError.notSupported "Child lock") ∧
    MiHeaterEntity.async_set_buzzer ⟨model, schema, limits⟩ enabled
      = OpResult.fail (WriteError.notSupported "Buzzer") ∧
    MiHeaterEntity.async_set_led_brightness ⟨model, schema, limits⟩ b
      = OpResult.fail (WriteError.notSupported "LED brightness") ∧
    MiHeaterEntity.async_set_delay_off ⟨model, schema, limits⟩ sec
      = OpResult.fail (WriteError.notSupported "Delay off") ∧
    (async_get_status schema values).lookup "delay_off" = some none ∧
    (async_get_status schema values).lookup "child_lock" = none ∧
    (async_get_status schema values).lookup "buzzer" = none ∧
    (async_get_status schema values).lookup "led_brightness" = none ∧
    (async_get_status schema values).lookup "countdown_time" = none := by
  simp only [ MODEL_PROPERTIES, List.mem_cons, List.not_mem_nil, or_false,
    Prod.mk.injEq] at hmem
  rcases hmem with ⟨rfl, rfl⟩ | ⟨rfl, rfl⟩ | ⟨rfl, rfl⟩ <;>
    exact unsupported_feature_paths _ _ limits lock enabled b sec values
      (by decide) (by decide) (by decide) (by decide) (by decide) (by decide)
      (by decide) (by decide)

/-- Claim C8 witness: on the shipped `zhimi.heater.mc2` model, a delay-off
write of 7200 fails as unsupported and a fetched snapshot holds
`delay_off = None`. -/
theorem C8_no_optional_features_witness :
    MiHeaterEntity.async_set_delay_off
        ⟨"zhimi.heater.mc2", mc2_properties, limits_for "zhimi.heater.mc2"⟩ 7200
      = OpResult.fail (WriteError.notSupported "Delay off") ∧
    (async_get_status mc2_properties c5_values).lookup "delay_off"
      = some none :=
  ⟨(C8_no_optional_features "zhimi.heater.mc2" mc2_properties
      (limits_for "zhimi.heater.mc2") true true "on" 7200 c5_values
      (by decide)).2.2.2.2.2.2.2.1,
   (C8_no_optional_features "zhimi.heater.mc2" mc2_properties
      (limits_for "zhimi.heater.mc2") true true "on" 7200 c5_values
      (by decide)).2.2.2.2.2.2.2.2.1⟩

end MiHeater
